import Mathlib

/-!
Verification development for the linkedin_mcp repository.

Shallow embedding of the request-dispatch layer (core/mcp_handler.py), the
retry engine (utils/retry.py), the sliding-window rate limiter
(utils/rate_limiter.py), the session manager (api/auth.py) and the on-disk
job entity cache (api/job_search.py), together with theorems settling the
frozen claims about those components.

Modelling conventions:
- Python objects passed through the dispatcher are modelled by the JSON-like
  value type JVal; Python None is JVal.null, and dictionaries are association
  lists in insertion order.
- Machine floats (times, delays) are modelled as rationals; wall-clock reads
  that happen microseconds apart inside one locked critical section are
  modelled as a single instant.
- Fallible Python calls are Except PyErr; external collaborators (domain
  services, network, disk) are oracle parameters so invocation counts can be
  stated exactly.
-/

namespace LinkedinMcp

/-- JSON-like runtime values exchanged through the dispatcher.  Python None is
null; dictionaries keep insertion order as association lists. -/
inductive JVal where
  | null
  | s (v : String)
  | i (v : Int)
  | b (v : Bool)
  | arr (xs : List JVal)
  | o (fields : List (String × JVal))

/-- A Python dictionary with string keys. -/
abbrev JDict := List (String × JVal)

/-- Dictionary lookup: Python d[k] / k in d.  Returns none when the key is
absent. -/
def dictGet : JDict → String → Option JVal
  | [], _ => none
  | (k0, v0) :: rest, k => if k0 = k then some v0 else dictGet rest k

/-- Dictionary update d[k] = v: replaces the value at an existing key in
place, otherwise appends the new binding (Python insertion-order semantics). -/
def dictSet (d : JDict) (k : String) (v : JVal) : JDict :=
  match d with
  | [] => [(k, v)]
  | (k0, v0) :: rest => if k0 = k then (k0, v) :: rest else (k0, v0) :: dictSet rest k v

/-- Python d.get(k): the value at k, or None when absent. -/
def pyGet (d : JDict) (k : String) : JVal :=
  (dictGet d k).getD .null

/-- Python truthiness: `if not x` is true exactly on these values. -/
def JVal.falsy : JVal → Bool
  | .null => true
  | .s v => v = ""
  | .i v => v = 0
  | .b v => !v
  | .arr xs => xs.isEmpty
  | .o fs => fs.isEmpty

/-- Python str() rendering, used for error payloads and cache file names.
Renderings of compound values are abstracted (no claim depends on them). -/
def JVal.pyStr : JVal → String
  | .null => "None"
  | .s v => v
  | .i v => toString v
  | .b v => if v then "True" else "False"
  | .arr _ => "<list>"
  | .o _ => "<dict>"

/-- Python exceptions that arise in the embedded code paths. -/
inductive PyErr where
  | exc (msg : String)
  | typeErrorKwarg (func kw : String)
  | typeErrorAwait (ty : String)
  | attributeError (attr : String)

/-- The str() of an exception, as interpolated into error responses. -/
def PyErr.str : PyErr → String
  | .exc m => m
  | .typeErrorKwarg f kw =>
      f ++ "() got an unexpected keyword argument \x27" ++ kw ++ "\x27"
  | .typeErrorAwait ty =>
      "object " ++ ty ++ " can\x27t be used in \x27await\x27 expression"
  | .attributeError a =>
      "\x27MCPHandler\x27 object has no attribute \x27" ++ a ++ "\x27"

namespace Core

/-- Request ids are Optional[Union[str, int]] (core/protocol.py). -/
abbrev ReqId := Option (String ⊕ Int)

/-- core/protocol.py MCPRequest. -/
structure MCPRequest where
  jsonrpc : String := "2.0"
  id : ReqId
  method : String
  params : Option JDict := none

/-- core/protocol.py Error. -/
structure Error where
  code : Int
  message : String
  data : Option JDict := none

/-- core/protocol.py SuccessResponse. -/
structure SuccessResponse where
  jsonrpc : String := "2.0"
  id : ReqId
  result : JVal

/-- core/protocol.py ErrorResponse. -/
structure ErrorResponse where
  jsonrpc : String := "2.0"
  id : ReqId
  error : Error

/-- The Union[SuccessResponse, ErrorResponse] return type of
MCPHandler.process_request. -/
inductive MCPResponse where
  | success (r : SuccessResponse)
  | failure (r : ErrorResponse)

/-- Oracle for the domain-service methods the registered handlers delegate
to (LinkedInAuth, LinkedInProfile, LinkedInJobSearch, generators,
JobApplication).  Each returns a result value or raises. -/
structure Services where
  login : JVal → JVal → Except PyErr JVal
  logout : Except PyErr JVal
  check_session : Except PyErr JVal
  get_feed : JVal → JVal → Except PyErr JVal
  get_profile : JVal → Except PyErr JVal
  get_company : JVal → Except PyErr JVal
  search_jobs : JVal → JVal → JVal → Except PyErr JVal
  get_job_details : JVal → Except PyErr JVal
  get_recommended_jobs : JVal → Except PyErr JVal
  get_saved_jobs : JVal → Except PyErr JVal
  save_job : JVal → Except PyErr JVal
  generate_resume : JVal → JVal → JVal → Except PyErr JVal
  tailor_resume : JVal → JVal → JVal → JVal → Except PyErr JVal
  generate_cover_letter : JVal → JVal → JVal → JVal → Except PyErr JVal
  apply_to_job : JVal → JVal → JVal → Except PyErr JVal
  get_application_status : JVal → Except PyErr JVal

/-- Outcome of invoking one handler: what the call returned or raised, and
how many domain-service operations it performed. -/
structure CallOutcome where
  result : Except PyErr JVal
  service_calls : Nat

/-- Static description of one entry of MCPHandler.method_handlers.
pyName is the handler attribute named in the table; defined records whether
the class actually defines that method (several registered names do not
exist, mcp_handler.py lines 131-189 vs 252-405); every defined handler has
signature (self, params) - none accepts a request_id keyword and none is a
coroutine function. -/
structure HandlerDescr where
  pyName : String
  defined : Bool
  accepts_request_id : Bool
  is_coroutine : Bool
deriving DecidableEq, Repr

/-- Descriptor for a handler as written in the class body. -/
def handlerOf (pyName : String) (defined : Bool) : HandlerDescr :=
  ⟨pyName, defined, false, false⟩

/-- MCPHandler.method_handlers, in the insertion order of the dict literal
(mcp_handler.py lines 131-189). -/
def method_handlers : List (String × HandlerDescr) := [
  ("linkedin.login", handlerOf "_handle_login" true),
  ("linkedin.logout", handlerOf "_handle_logout" true),
  ("linkedin.checkSession", handlerOf "_handle_check_session" true),
  ("linkedin.getProfile", handlerOf "_handle_get_profile" true),
  ("linkedin.updateProfile", handlerOf "_handle_update_profile" false),
  ("linkedin.getCompany", handlerOf "_handle_get_company" true),
  ("linkedin.searchCompanies", handlerOf "_handle_search_companies" false),
  ("linkedin.searchJobs", handlerOf "_handle_search_jobs" true),
  ("linkedin.getJobDetails", handlerOf "_handle_get_job_details" true),
  ("linkedin.getRecommendedJobs", handlerOf "_handle_get_recommended_jobs" true),
  ("linkedin.saveJob", handlerOf "_handle_save_job" true),
  ("linkedin.unsaveJob", handlerOf "_handle_unsave_job" false),
  ("linkedin.generateResume", handlerOf "_handle_generate_resume" true),
  ("linkedin.generateCoverLetter", handlerOf "_handle_generate_cover_letter" true),
  ("linkedin.getResumeTemplates", handlerOf "_handle_get_resume_templates" false),
  ("linkedin.getCoverLetterTemplates", handlerOf "_handle_get_cover_letter_templates" false),
  ("linkedin.applyToJob", handlerOf "_handle_apply_to_job" true),
  ("linkedin.trackApplication", handlerOf "_handle_track_application" false),
  ("linkedin.withdrawApplication", handlerOf "_handle_withdraw_application" false),
  ("linkedin.getConnections", handlerOf "_handle_get_connections" false),
  ("linkedin.sendConnectionRequest", handlerOf "_handle_send_connection_request" false),
  ("linkedin.acceptConnectionRequest", handlerOf "_handle_accept_connection_request" false),
  ("linkedin.sendMessage", handlerOf "_handle_send_message" false),
  ("linkedin.getMessages", handlerOf "_handle_get_messages" false),
  ("linkedin.getMessageThread", handlerOf "_handle_get_message_thread" false),
  ("linkedin.getFeed", handlerOf "_handle_get_feed" true),
  ("linkedin.getPost", handlerOf "_handle_get_post" false),
  ("linkedin.createPost", handlerOf "_handle_create_post" false),
  ("linkedin.likePost", handlerOf "_handle_like_post" false),
  ("linkedin.commentOnPost", handlerOf "_handle_comment_on_post" false),
  ("linkedin.getNotifications", handlerOf "_handle_get_notifications" false),
  ("linkedin.markNotificationAsRead", handlerOf "_handle_mark_notification_as_read" false),
  ("linkedin.getPrivacySettings", handlerOf "_handle_get_privacy_settings" false),
  ("linkedin.updatePrivacySettings", handlerOf "_handle_update_privacy_settings" false),
  ("linkedin.getEmailPreferences", handlerOf "_handle_get_email_preferences" false),
  ("linkedin.updateEmailPreferences", handlerOf "_handle_update_email_preferences" false)]

/-- list(self.method_handlers.keys()), in insertion order. -/
def registered_methods : List String :=
  method_handlers.map (·.1)

/-- self.method_handlers.get(request.method). -/
def lookup_method (m : String) : Option HandlerDescr :=
  (method_handlers.find? (fun p => p.1 = m)).map (·.2)

/-- The body of each defined handler method (mcp_handler.py lines 252-405),
entered with its params argument; returns the value the body returns or the
exception it raises, plus the number of domain-service calls it makes. -/
def handler_body (svc : Services) (pyName : String) (params : JDict) : CallOutcome :=
  match pyName with
  | "_handle_login" =>
    let username := pyGet params "username"
    let password := pyGet params "password"
    if username.falsy || password.falsy then
      ⟨.error (.exc "Username and password are required"), 0⟩
    else ⟨svc.login username password, 1⟩
  | "_handle_logout" => ⟨svc.logout, 1⟩
  | "_handle_check_session" => ⟨svc.check_session, 1⟩
  | "_handle_get_feed" =>
    let count := (dictGet params "count").getD (.i 10)
    let feed_type := (dictGet params "type").getD (.s "general")
    ⟨svc.get_feed count feed_type, 1⟩
  | "_handle_get_profile" =>
    let profile_id := pyGet params "profileId"
    if profile_id.falsy then ⟨.error (.exc "Profile ID is required"), 0⟩
    else ⟨svc.get_profile profile_id, 1⟩
  | "_handle_get_company" =>
    let company_id := pyGet params "companyId"
    if company_id.falsy then ⟨.error (.exc "Company ID is required"), 0⟩
    else ⟨svc.get_company company_id, 1⟩
  | "_handle_search_jobs" =>
    let search_filter := (dictGet params "filter").getD (.o [])
    let page := (dictGet params "page").getD (.i 1)
    let count := (dictGet params "count").getD (.i 20)
    ⟨svc.search_jobs search_filter page count, 1⟩
  | "_handle_get_job_details" =>
    let job_id := pyGet params "jobId"
    if job_id.falsy then ⟨.error (.exc "Job ID is required"), 0⟩
    else ⟨svc.get_job_details job_id, 1⟩
  | "_handle_get_recommended_jobs" =>
    let count := (dictGet params "count").getD (.i 10)
    ⟨svc.get_recommended_jobs count, 1⟩
  | "_handle_generate_resume" =>
    let profile_id := pyGet params "profileId"
    let template := pyGet params "template"
    let format_type := (dictGet params "format").getD (.s "pdf")
    if profile_id.falsy then ⟨.error (.exc "Profile ID is required"), 0⟩
    else
      match svc.generate_resume profile_id template format_type with
      | .ok v => ⟨.ok v, 1⟩
      | .error e => ⟨.ok (.o [("success", .b false), ("error", .s e.str)]), 1⟩
  | "_handle_generate_cover_letter" =>
    let profile_id := pyGet params "profileId"
    let job_id := pyGet params "jobId"
    let template := pyGet params "template"
    let format_type := (dictGet params "format").getD (.s "pdf")
    if profile_id.falsy || job_id.falsy then
      ⟨.error (.exc "Profile ID and Job ID are required"), 0⟩
    else
      match svc.generate_cover_letter profile_id job_id template format_type with
      | .ok v => ⟨.ok v, 1⟩
      | .error e => ⟨.ok (.o [("success", .b false), ("error", .s e.str)]), 1⟩
  | "_handle_tailor_resume" =>
    let profile_id := pyGet params "profileId"
    let job_id := pyGet params "jobId"
    let template := pyGet params "template"
    let format_type := (dictGet params "format").getD (.s "pdf")
    if profile_id.falsy || job_id.falsy then
      ⟨.error (.exc "Profile ID and Job ID are required"), 0⟩
    else
      match svc.tailor_resume profile_id job_id template format_type with
      | .ok v => ⟨.ok v, 1⟩
      | .error e => ⟨.ok (.o [("success", .b false), ("error", .s e.str)]), 1⟩
  | "_handle_apply_to_job" =>
    let job_id := pyGet params "jobId"
    let resume_id := pyGet params "resumeId"
    let cover_letter_id := pyGet params "coverLetterId"
    if job_id.falsy || resume_id.falsy then
      ⟨.error (.exc "Job ID and Resume ID are required"), 0⟩
    else ⟨svc.apply_to_job job_id resume_id cover_letter_id, 1⟩
  | "_handle_get_application_status" =>
    let application_id := pyGet params "applicationId"
    if application_id.falsy then ⟨.error (.exc "Application ID is required"), 0⟩
    else ⟨svc.get_application_status application_id, 1⟩
  | "_handle_get_saved_jobs" =>
    let count := (dictGet params "count").getD (.i 10)
    ⟨svc.get_saved_jobs count, 1⟩
  | "_handle_save_job" =>
    let job_id := pyGet params "jobId"
    if job_id.falsy then ⟨.error (.exc "Job ID is required"), 0⟩
    else ⟨svc.save_job job_id, 1⟩
  | _ => ⟨.error (.attributeError pyName), 0⟩

/-- Semantics of the call handler(params=..., request_id=...) performed by
process_request (mcp_handler.py line 229).  A name registered in the table
without a class definition raises AttributeError (in the source this already
happens while the table is built in init); a defined handler whose signature
does not accept request_id raises TypeError before its body runs - which is
the case for every defined handler. -/
def call_handler (svc : Services) (h : HandlerDescr) (params : JDict) : CallOutcome :=
  if !h.defined then ⟨.error (.attributeError h.pyName), 0⟩
  else if !h.accepts_request_id then ⟨.error (.typeErrorKwarg h.pyName "request_id"), 0⟩
  else handler_body svc h.pyName params

/-- MCPHandler.process_request (mcp_handler.py lines 193-249), returning the
response together with the number of domain-service invocations performed.
The handler call and the await of its result sit inside a try/except that
converts any exception into the generic internal-error ErrorResponse; what
awaiting the non-coroutine return value of a defined handler would raise is
the await TypeError branch.  The outer handle_errors decorator never fires
because this body catches every exception itself. -/
def process_request (svc : Services) (req : MCPRequest) : MCPResponse × Nat :=
  match lookup_method req.method with
  | none =>
    (.failure ⟨"2.0", req.id,
      ⟨-32601, "Method not found: " ++ req.method,
        some [("available_methods", JVal.arr (registered_methods.map JVal.s))]⟩⟩, 0)
  | some h =>
    let out := call_handler svc h ((req.params.getD []))
    match out.result with
    | .error e =>
      (.failure ⟨"2.0", req.id,
        ⟨-32603, "Internal server error",
          some [("method", JVal.s req.method), ("error", JVal.s e.str)]⟩⟩,
       out.service_calls)
    | .ok _v =>
      if h.is_coroutine then
        (.success ⟨"2.0", req.id, _v⟩, out.service_calls)
      else
        (.failure ⟨"2.0", req.id,
          ⟨-32603, "Internal server error",
            some [("method", JVal.s req.method),
                  ("error", JVal.s (PyErr.typeErrorAwait "dict").str)]⟩⟩,
         out.service_calls)

end Core

namespace Retry

/-- utils/retry.py RetryConfig, with the source defaults.  Float fields are
modelled as rationals; retry_on is passed separately as a predicate (Python
membership test of the raised exception in the configured exception tuple). -/
structure RetryConfig where
  max_attempts : Nat := 3
  initial_delay : ℚ := 1/2
  max_delay : ℚ := 60
  jitter : ℚ := 1/10
  exponential_base : ℚ := 2
  max_elapsed_time : Option ℚ := some 300
deriving DecidableEq, Repr

/-- The guard `if config.max_elapsed_time and elapsed >= config.max_elapsed_time`
(retry.py lines 141 and 200): Python truthiness makes both None and 0.0 skip
the cutoff. -/
def elapsed_cutoff (cfg : RetryConfig) (elapsed : ℚ) : Bool :=
  match cfg.max_elapsed_time with
  | none => false
  | some m => if m = 0 then false else decide (m ≤ elapsed)

/-- The pre-jitter backoff of attempt number `attempt`
(retry.py lines 214-217); the random jitter then perturbs it by at most
delay * jitter in each direction and only changes how long the sleep lasts. -/
def backoff_delay (cfg : RetryConfig) (attempt : Nat) : ℚ :=
  min (cfg.initial_delay * cfg.exponential_base ^ (attempt - 1)) cfg.max_delay

/-- What the retry executor ends with: a returned value, the original
exception propagated uncaught, or a raised RetryError with its wrapped last
exception. -/
inductive RetryResult (α ε : Type) where
  | ok (v : α)
  | raised (e : ε)
  | retryError (msg : String) (last : Option ε)

/-- One run of the retry executor: final result, number of invocations of the
wrapped operation, number of backoff sleeps performed. -/
structure RetryTrace (α ε : Type) where
  result : RetryResult α ε
  invocations : Nat
  sleeps : Nat

/-- The `for attempt in range(1, max_attempts + 1)` loop of
_retry_sync_operation (retry.py lines 190-237).  `f i` is the outcome of the
i-th invocation of the wrapped operation, `retry_on e` the membership test
`except tuple(config.retry_on)`, and `elapsed i` the monotonic elapsed time
observed at the cutoff check after the i-th failure.  The fuel argument
counts the remaining loop iterations; running out of fuel is the fall-through
after the loop (unreachable from the top-level entry).  The elapsed-time
RetryError message has its formatted seconds value abstracted away. -/
def retry_loop {α ε : Type} (cfg : RetryConfig) (retry_on : ε → Bool)
    (f : Nat → Except ε α) (elapsed : Nat → ℚ) :
    Nat → Nat → Nat → Nat → Option ε → RetryTrace α ε
  | 0, _attempt, inv, slp, last_e =>
      ⟨.retryError "Unexpected error in retry logic" last_e, inv, slp⟩
  | fuel + 1, attempt, inv, slp, _last_e =>
      match f attempt with
      | .ok v => ⟨.ok v, inv + 1, slp⟩
      | .error e =>
        if retry_on e then
          if elapsed_cutoff cfg (elapsed attempt) then
            ⟨.retryError "Exceeded maximum elapsed time" (some e), inv + 1, slp⟩
          else if cfg.max_attempts ≤ attempt then
            ⟨.retryError ("All " ++ toString cfg.max_attempts ++ " attempts failed")
              (some e), inv + 1, slp⟩
          else
            retry_loop cfg retry_on f elapsed fuel (attempt + 1) (inv + 1) (slp + 1) (some e)
        else ⟨.raised e, inv + 1, slp⟩

/-- _retry_sync_operation (retry.py lines 180-237). -/
def retry_sync_operation {α ε : Type} (cfg : RetryConfig) (retry_on : ε → Bool)
    (f : Nat → Except ε α) (elapsed : Nat → ℚ) : RetryTrace α ε :=
  retry_loop cfg retry_on f elapsed cfg.max_attempts 1 0 0 none

/-- _retry_async_operation (retry.py lines 121-178) is line for line the same
algorithm with await and asyncio.sleep in place of the sync call and
time.sleep; its embedded semantics coincide with the sync executor. -/
def retry_async_operation {α ε : Type} (cfg : RetryConfig) (retry_on : ε → Bool)
    (f : Nat → Except ε α) (elapsed : Nat → ℚ) : RetryTrace α ε :=
  retry_sync_operation cfg retry_on f elapsed

end Retry

namespace RateLimit

/-- utils/rate_limiter.py RateLimiter configuration fields (the retry/backoff
fields only drive the decorator wrapper, not admission). -/
structure RateLimiter where
  max_requests : Nat
  window : ℚ
  retry_attempts : Nat := 3
  initial_backoff : ℚ := 1/2
  max_backoff : ℚ := 60
  jitter : ℚ := 1/10
deriving DecidableEq, Repr

/-- RateLimiter._cleanup_old_requests (rate_limiter.py lines 84-87): keep
timestamps strictly newer than now - window. -/
def cleanup_old_requests (rl : RateLimiter) (now : ℚ) (requests : List ℚ) : List ℚ :=
  requests.filter (fun t => now - rl.window < t)

/-- Result of one admission attempt: a recorded admission, a raised
RateLimitExceeded (reset_time, retry_after, limit, window), or the IndexError
that `self.requests[0]` raises when max_requests = 0 and nothing survives
pruning. -/
inductive AcquireResult where
  | admitted (timestamp : ℚ)
  | rateLimited (reset_time retry_after : ℚ) (limit : Nat) (window : ℚ)
  | indexError
deriving DecidableEq, Repr

/-- RateLimiter._acquire (rate_limiter.py lines 89-115) run at wall-clock
time `now`, returning the outcome and the new timestamp list.  The second
time.time() read inside RateLimitExceeded (line 29) happens inside the same
locked critical section and is modelled as the same instant, so
retry_after = max 0 (reset_time - now). -/
def acquire (rl : RateLimiter) (requests : List ℚ) (now : ℚ) :
    AcquireResult × List ℚ :=
  if rl.max_requests ≤ (cleanup_old_requests rl now requests).length then
    match (cleanup_old_requests rl now requests).head? with
    | some oldest =>
      (.rateLimited (oldest + rl.window) (max 0 (oldest + rl.window - now))
        rl.max_requests rl.window, cleanup_old_requests rl now requests)
    | none => (.indexError, cleanup_old_requests rl now requests)
  else
    (.admitted now, cleanup_old_requests rl now requests ++ [now])

/-- Number of recorded timestamps that lie within the last window as of
`now`. -/
def in_window_count (rl : RateLimiter) (now : ℚ) (requests : List ℚ) : Nat :=
  (requests.filter (fun t => now - rl.window < t)).length

end RateLimit

namespace Auth

/-- A durable cached session record (api/auth.py _save_session writes
timestamp, cookies, headers).  `timestamp : none` models a pickled dict that
lacks the timestamp key, which session_data.get defaults to datetime.now().
Times are integer timestamps; timedelta(days=7) is seven_days seconds. -/
structure SessionRecord where
  timestamp : Option Int
  cookies : List (String × String)
  headers : List (String × String)
deriving DecidableEq, Repr

/-- The state of the on-disk session store for one username: no file, a file
that fails to unpickle (the except branch logs and falls through), or a
loaded record. -/
inductive StoredSession where
  | absent
  | corrupt
  | record (r : SessionRecord)
deriving DecidableEq, Repr

def seven_days : Int := 7 * 86400

/-- LinkedInAuth._load_session (auth.py lines 110-132): returns the cached
record when it exists, unpickles, and datetime.now() minus its (defaulted)
timestamp is strictly less than 7 days; otherwise None. -/
def load_session (store : String → StoredSession) (now : Int) (username : String) :
    Option SessionRecord :=
  match store username with
  | .absent => none
  | .corrupt => none
  | .record r => if now - (r.timestamp.getD now) < seven_days then some r else none

/-- core/protocol.py LinkedInSessionState. -/
structure LinkedInSessionState where
  logged_in : Bool
  username : Option String := none
  cookies : Option (List (String × String)) := none
  headers : Option (List (String × String)) := none
deriving DecidableEq, Repr

/-- Network oracles for the two authentication paths: the programmatic
Linkedin(username, password) client construction (returning session cookies
and headers) and the attempt-indexed browser automation login (returning
browser cookies). -/
structure AuthNet where
  api_login : String → String → Except String (List (String × String) × List (String × String))
  browser_login : Nat → Except String (List (String × String))

/-- What LinkedInAuth.login ends with: the cached session dict returned
as-is, the session_state.dict() built after a network login, or a raised
exception message. -/
inductive LoginOutcome where
  | cached (r : SessionRecord)
  | sessionDict (st : LinkedInSessionState)
  | failure (msg : String)
deriving DecidableEq, Repr

/-- One run of login: its outcome, the number of network authentication
calls performed (API login attempts plus browser login attempts), the final
self.session_state, and the session records persisted to disk. -/
structure LoginResult where
  outcome : LoginOutcome
  network_calls : Nat
  final_state : LinkedInSessionState
  saves : List (String × SessionRecord)
deriving DecidableEq, Repr

/-- LinkedInAuth._browser_login_with_retry (auth.py lines 157-215): up to
max_retries browser attempts, persisting and adopting the session on the
first success, raising after exhaustion.  fuel counts remaining attempts. -/
def browser_retry_loop (net : AuthNet) (now : Int) (st0 : LinkedInSessionState)
    (username : String) (max_retries : Nat) :
    Nat → Nat → Nat → Option String → LoginResult
  | 0, _attempt, calls, last_err =>
    ⟨.failure ("All " ++ toString max_retries ++ " browser login attempts failed. Last error: "
        ++ (last_err.getD "None")), calls, st0, []⟩
  | fuel + 1, attempt, calls, _last_err =>
    match net.browser_login attempt with
    | .ok cookies =>
      let st : LinkedInSessionState := ⟨true, some username, some cookies, some []⟩
      ⟨.sessionDict st, calls + 1, st, [(username, ⟨some now, cookies, []⟩)]⟩
    | .error e =>
      browser_retry_loop net now st0 username max_retries fuel (attempt + 1) (calls + 1) (some e)

/-- The network portion of LinkedInAuth.login (auth.py lines 72-108): try the
programmatic API login first; on success persist and adopt the session; on
any failure (Challenge or not, lines 100-108) fall back to browser login with
3 retries. -/
def network_login (net : AuthNet) (now : Int) (st0 : LinkedInSessionState)
    (username _password : String) : LoginResult :=
  match net.api_login username _password with
  | .ok cp =>
    let st : LinkedInSessionState := ⟨true, some username, some cp.1, some cp.2⟩
    ⟨.sessionDict st, 1, st, [(username, ⟨some now, cp.1, cp.2⟩)]⟩
  | .error _api_err =>
    let r := browser_retry_loop net now st0 username 3 3 1 0 none
    { r with network_calls := r.network_calls + 1 }

/-- LinkedInAuth.login (auth.py lines 42-108).  Unless force_new, a cached
session younger than 7 days is returned directly (note: without touching
self.session_state, which stays st0); otherwise the network login path
runs. -/
def login (net : AuthNet) (store : String → StoredSession) (now : Int)
    (st0 : LinkedInSessionState) (username password : String)
    (force_new : Bool) : LoginResult :=
  if !force_new then
    match load_session store now username with
    | some session_data => ⟨.cached session_data, 0, st0, []⟩
    | none => network_login net now st0 username password
  else network_login net now st0 username password

end Auth

namespace JobCache

/-- State of one on-disk job cache file: missing, present but failing
json.load (the except branch passes, leaving the incoming record), or
holding a parsed record. -/
inductive StoredJob where
  | absent
  | corrupt
  | data (d : JDict)

/-- Python `x is None`. -/
def JVal.isNone : JVal → Bool
  | .null => true
  | _ => false

/-- One iteration of the update loop of _cache_job_details (job_search.py
lines 700-702): a new field is copied in only when its value is not None and
the existing record has no value (or None) at that key. -/
def merge_step (acc : JDict) (kv : String × JVal) : JDict :=
  if JVal.isNone kv.2 then acc
  else
    match dictGet acc kv.1 with
    | none => dictSet acc kv.1 kv.2
    | some v0 => if JVal.isNone v0 then dictSet acc kv.1 kv.2 else acc

/-- The whole update loop: fold the incoming items over the existing
record. -/
def merge_new_fields (existing incoming : JDict) : JDict :=
  incoming.foldl merge_step existing

/-- LinkedInJobSearch._cache_job_details (job_search.py lines 678-715) run
against the cache store at ISO timestamp now_iso.  Records are keyed by the
rendered job id (the .json suffix of the file name is dropped, it is
injective in the id).  A falsy job_id returns without writing; an existing
readable record is merged field by field; _cached_at is then stamped and the
result written back. -/
def cache_job_details (store : String → StoredJob) (now_iso : String)
    (job_details : JDict) : String → StoredJob :=
  if (pyGet job_details "job_id").falsy then store
  else
    fun k =>
      if k = (pyGet job_details "job_id").pyStr then
        .data (dictSet
          (match store ((pyGet job_details "job_id").pyStr) with
           | .data existing => merge_new_fields existing job_details
           | .absent => job_details
           | .corrupt => job_details)
          "_cached_at" (.s now_iso))
      else store k

end JobCache

namespace Core

/-- Mocked domain services for the dispatcher scenarios: the job-search
service returns the C1 job dictionary; the remaining operations are
immaterial stubs (the dispatcher never reaches a service in the settled
scenarios, as the invocation counts prove). -/
def mockServices : Services where
  login := fun _ _ => .ok .null
  logout := .ok .null
  check_session := .ok .null
  get_feed := fun _ _ => .ok .null
  get_profile := fun _ => .ok .null
  get_company := fun _ => .ok .null
  search_jobs := fun _ _ _ => .ok .null
  get_job_details := fun _ => .ok (.o [("job_id", .s "42"), ("title", .s "Engineer")])
  get_recommended_jobs := fun _ => .ok .null
  get_saved_jobs := fun _ => .ok .null
  save_job := fun _ => .ok .null
  generate_resume := fun _ _ _ => .ok .null
  tailor_resume := fun _ _ _ _ => .ok .null
  generate_cover_letter := fun _ _ _ _ => .ok .null
  apply_to_job := fun _ _ _ => .ok .null
  get_application_status := fun _ => .ok .null

/-- The C1 request. -/
def reqGetJobDetails : MCPRequest :=
  ⟨"2.0", some (Sum.inl "r1"), "linkedin.getJobDetails", some [("jobId", .s "42")]⟩

/-- The C2 request: getProfile with empty params. -/
def reqGetProfileEmpty : MCPRequest :=
  ⟨"2.0", some (Sum.inl "p1"), "linkedin.getProfile", some []⟩

/-- C1: the claimed Success envelope never happens.  process_request calls
every handler with a request_id keyword argument that no handler accepts
(and would then await the non-coroutine result), so the request
linkedin.getJobDetails with jobId 42 against a service returning the job
dictionary yields the generic internal-error Failure with zero service
invocations - not the SuccessResponse wrapping the dictionary. -/
theorem claim1_get_job_details_scenario :
    process_request mockServices reqGetJobDetails =
      (.failure ⟨"2.0", some (Sum.inl "r1"),
        ⟨-32603, "Internal server error",
          some [("method", JVal.s "linkedin.getJobDetails"),
            ("error", JVal.s "_handle_get_job_details() got an unexpected keyword argument \x27request_id\x27")]⟩⟩, 0)
    ∧ (process_request mockServices reqGetJobDetails).1 ≠
        .success ⟨"2.0", some (Sum.inl "r1"),
          .o [("job_id", .s "42"), ("title", .s "Engineer")]⟩ :=
  ⟨rfl, fun h => MCPResponse.noConfusion h⟩

/-- C2 counterexample: the getProfile request with empty params yields the
generic internal-error Failure (code -32603, message "Internal server
error"), not a ValidationError-shaped error (-32602) naming the missing
profileId field; the profile service is never invoked (count 0). -/
theorem claim2_counterexample :
    process_request mockServices reqGetProfileEmpty =
      (.failure ⟨"2.0", some (Sum.inl "p1"),
        ⟨-32603, "Internal server error",
          some [("method", JVal.s "linkedin.getProfile"),
            ("error", JVal.s "_handle_get_profile() got an unexpected keyword argument \x27request_id\x27")]⟩⟩, 0)
    ∧ (-32603 : Int) ≠ -32602 :=
  ⟨rfl, by decide⟩

/-- C2 amended: every linkedin.getProfile request (in particular one whose
params omit the required profileId) yields a Failure with the generic
internal-error code -32603 and message "Internal server error" (the
TypeError detail in data), and the profile service is never invoked. -/
theorem claim2_amended (svc : Services) (id : ReqId) (params : Option JDict) :
    process_request svc ⟨"2.0", id, "linkedin.getProfile", params⟩ =
      (.failure ⟨"2.0", id,
        ⟨-32603, "Internal server error",
          some [("method", JVal.s "linkedin.getProfile"),
            ("error", JVal.s "_handle_get_profile() got an unexpected keyword argument \x27request_id\x27")]⟩⟩, 0) :=
  rfl

/-- C3: a request whose method is not a key of the dispatch table gets a
Failure echoing the request id, with a method-not-found message and the full
registered method list in data, without raising and without any service
invocation. -/
theorem claim3_method_not_found (svc : Services) (req : MCPRequest)
    (h : lookup_method req.method = none) :
    process_request svc req =
      (.failure ⟨"2.0", req.id,
        ⟨-32601, "Method not found: " ++ req.method,
          some [("available_methods", JVal.arr (registered_methods.map JVal.s))]⟩⟩, 0) := by
  unfold process_request
  rw [h]

/-- C3 witness: the unregistered method linkedin.doesNotExist. -/
theorem claim3_witness :
    process_request mockServices ⟨"2.0", some (Sum.inr 7), "linkedin.doesNotExist", none⟩ =
      (.failure ⟨"2.0", some (Sum.inr 7),
        ⟨-32601, "Method not found: linkedin.doesNotExist",
          some [("available_methods", JVal.arr (registered_methods.map JVal.s))]⟩⟩, 0) :=
  claim3_method_not_found mockServices _ rfl

end Core

namespace Retry

/-- If attempts a, a+1, ..., a+j-1 all fail with retryable errors (below both
cutoffs) and attempt a+j succeeds, the loop returns the success value after
j+1 further invocations and j further sleeps. -/
theorem retry_loop_ok_after_failures {α ε : Type} (cfg : RetryConfig) (retry_on : ε → Bool)
    (f : Nat → Except ε α) (elapsed : Nat → ℚ) (v : α) :
    ∀ (j fuel attempt inv slp : Nat) (last_e : Option ε),
      (∀ i, attempt ≤ i → i < attempt + j →
        ∃ e, f i = .error e ∧ retry_on e = true ∧
          elapsed_cutoff cfg (elapsed i) = false ∧ ¬ cfg.max_attempts ≤ i) →
      f (attempt + j) = .ok v →
      j < fuel →
      retry_loop cfg retry_on f elapsed fuel attempt inv slp last_e =
        ⟨.ok v, inv + j + 1, slp + j⟩ := by
  intro j
  induction j with
  | zero =>
    intro fuel attempt inv slp last_e _hf hok hfuel
    match fuel, hfuel with
    | fuel + 1, _ =>
      simp only [retry_loop]
      rw [show attempt + 0 = attempt from rfl] at hok
      rw [hok]
      rfl
  | succ j ih =>
    intro fuel attempt inv slp last_e hf hok hfuel
    match fuel, hfuel with
    | fuel + 1, hfuel =>
      obtain ⟨e, he, hr, hc, hm⟩ := hf attempt (Nat.le_refl _) (by omega)
      simp only [retry_loop, he, hr, hc, if_true, Bool.false_eq_true, if_false]
      rw [if_neg hm]
      have h1 : inv + (j + 1) + 1 = (inv + 1) + j + 1 := by omega
      have h2 : slp + (j + 1) = (slp + 1) + j := by omega
      rw [h1, h2]
      apply ih
      · intro i hi1 hi2
        exact hf i (by omega) (by omega)
      · rw [show attempt + 1 + j = attempt + (j + 1) by omega]
        exact hok
      · omega

/-- If every attempt from a on fails with a retryable error below the elapsed
cutoff, and the loop has exactly enough fuel to reach max_attempts, it raises
RetryError wrapping the error of the final attempt, after one invocation per
remaining attempt and one sleep per attempt except the last. -/
theorem retry_loop_exhausts {α ε : Type} (cfg : RetryConfig) (retry_on : ε → Bool)
    (f : Nat → Except ε α) (elapsed : Nat → ℚ) (err : Nat → ε)
    (hf : ∀ i, 1 ≤ i → f i = .error (err i) ∧ retry_on (err i) = true ∧
        elapsed_cutoff cfg (elapsed i) = false) :
    ∀ (fuel attempt inv slp : Nat) (last_e : Option ε),
      1 ≤ attempt →
      attempt + fuel = cfg.max_attempts + 1 →
      1 ≤ fuel →
      retry_loop cfg retry_on f elapsed fuel attempt inv slp last_e =
        ⟨.retryError ("All " ++ toString cfg.max_attempts ++ " attempts failed")
            (some (err cfg.max_attempts)), inv + fuel, slp + (fuel - 1)⟩ := by
  intro fuel
  induction fuel with
  | zero =>
    intro attempt inv slp last_e _h1 _hsum hfuel
    omega
  | succ fu ih =>
    intro attempt inv slp last_e h1 hsum _hfuel
    obtain ⟨he, hr, hc⟩ := hf attempt h1
    by_cases hm : cfg.max_attempts ≤ attempt
    · have hfu0 : fu = 0 := by omega
      have hatt : attempt = cfg.max_attempts := by omega
      subst hfu0
      simp only [retry_loop, he, hr, hc, Bool.false_eq_true, if_false, if_true]
      rw [if_pos hm, hatt]
      rfl
    · have hfu : 1 ≤ fu := by omega
      simp only [retry_loop, he, hr, hc, Bool.false_eq_true, if_false, if_true]
      rw [if_neg hm]
      have h2 : inv + (fu + 1) = (inv + 1) + fu := by omega
      have h3 : slp + (fu + 1 - 1) = (slp + 1) + (fu - 1) := by omega
      rw [h2, h3]
      exact ih (attempt + 1) (inv + 1) (slp + 1) (some (err attempt)) (by omega) (by omega) hfu

/-- The source default config with max_attempts set to 1. -/
def cfgOneAttempt : RetryConfig := { max_attempts := 1 }

/-- C4 counterexample: under max_attempts = 1, a single retryable failure
makes the executor raise RetryError("All 1 attempts failed") wrapping the
original error (retry.py lines 207-211) - the result is not the propagated
original error the claim requires. -/
theorem claim4_counterexample :
    retry_sync_operation cfgOneAttempt (fun _ => true)
        (fun _ => (Except.error "boom" : Except String Unit)) (fun _ => 0) =
      ⟨.retryError "All 1 attempts failed" (some "boom"), 1, 0⟩
    ∧ (retry_sync_operation cfgOneAttempt (fun _ => true)
        (fun _ => (Except.error "boom" : Except String Unit)) (fun _ => 0)).result ≠
        .raised "boom" :=
  ⟨rfl, fun h => RetryResult.noConfusion h⟩

/-- C4 amended: with max_attempts = 1, a single invocation failing with a
retryable error (below the elapsed cutoff) raises RetryError "All 1 attempts
failed" wrapping the original error, after exactly one invocation and no
sleep. -/
theorem claim4_amended {α ε : Type} (cfg : RetryConfig) (retry_on : ε → Bool)
    (f : Nat → Except ε α) (elapsed : Nat → ℚ) (e : ε)
    (hm : cfg.max_attempts = 1) (hf : f 1 = .error e) (hr : retry_on e = true)
    (hc : elapsed_cutoff cfg (elapsed 1) = false) :
    retry_sync_operation cfg retry_on f elapsed =
      ⟨.retryError "All 1 attempts failed" (some e), 1, 0⟩ := by
  unfold retry_sync_operation
  rw [hm]
  show retry_loop cfg retry_on f elapsed (0 + 1) 1 0 0 none = _
  simp only [retry_loop, hf, hr, hc, Bool.false_eq_true, if_false, if_true]
  rw [if_pos (show cfg.max_attempts ≤ 1 by omega), hm]
  rfl

/-- C4 witness for the amended claim. -/
theorem claim4_witness :
    retry_sync_operation cfgOneAttempt (fun _ => true)
        (fun _ => (Except.error "bang" : Except String Nat)) (fun _ => 0) =
      ⟨.retryError "All 1 attempts failed" (some "bang"), 1, 0⟩ :=
  claim4_amended cfgOneAttempt (fun _ => true) _ _ "bang" rfl rfl rfl rfl

/-- C5: with no elapsed cutoff reached, an operation failing with retryable
errors exactly k < max_attempts times before succeeding returns the success
value after exactly k+1 invocations; an operation that always fails with
retryable errors raises RetryError wrapping the last error after exactly
max_attempts invocations. -/
theorem claim5_retry_invocation_counts :
    (∀ (α ε : Type) (cfg : RetryConfig) (retry_on : ε → Bool) (f : Nat → Except ε α)
        (elapsed : Nat → ℚ) (err : Nat → ε) (k : Nat) (v : α),
        (∀ i, 1 ≤ i → i ≤ k → f i = .error (err i) ∧ retry_on (err i) = true ∧
            elapsed_cutoff cfg (elapsed i) = false) →
        f (k + 1) = .ok v →
        k < cfg.max_attempts →
        retry_sync_operation cfg retry_on f elapsed = ⟨.ok v, k + 1, k⟩)
    ∧ (∀ (α ε : Type) (cfg : RetryConfig) (retry_on : ε → Bool) (f : Nat → Except ε α)
        (elapsed : Nat → ℚ) (err : Nat → ε),
        (∀ i, 1 ≤ i → f i = .error (err i) ∧ retry_on (err i) = true ∧
            elapsed_cutoff cfg (elapsed i) = false) →
        1 ≤ cfg.max_attempts →
        retry_sync_operation cfg retry_on f elapsed =
          ⟨.retryError ("All " ++ toString cfg.max_attempts ++ " attempts failed")
              (some (err cfg.max_attempts)), cfg.max_attempts, cfg.max_attempts - 1⟩) := by
  constructor
  · intro α ε cfg retry_on f elapsed err k v hfail hok hk
    unfold retry_sync_operation
    have hmain := retry_loop_ok_after_failures cfg retry_on f elapsed v k cfg.max_attempts
      1 0 0 none
      (fun i hi1 hi2 => by
        obtain ⟨he, hr, hc⟩ := hfail i hi1 (by omega)
        exact ⟨err i, he, hr, hc, by omega⟩)
      (by rw [show (1 : Nat) + k = k + 1 by omega]; exact hok)
      (by omega)
    rw [hmain]
    simp only [Nat.zero_add]
  · intro α ε cfg retry_on f elapsed err hfail hm
    unfold retry_sync_operation
    have hmain := retry_loop_exhausts cfg retry_on f elapsed err hfail cfg.max_attempts
      1 0 0 none (Nat.le_refl _) (by omega) (by omega)
    rw [hmain]
    simp only [Nat.zero_add]

/-- C5 witness: two failures then success under max_attempts = 3 gives the
value after 3 invocations; constant failure under max_attempts = 3 raises
after 3 invocations. -/
theorem claim5_witness :
    retry_sync_operation ({ max_attempts := 3 } : RetryConfig) (fun _ => true)
        (fun i => if i ≤ 2 then Except.error "e" else Except.ok (7 : Nat)) (fun _ => 0) =
      ⟨.ok 7, 3, 2⟩
    ∧ retry_sync_operation ({ max_attempts := 3 } : RetryConfig) (fun _ => true)
        (fun _ => (Except.error "boom" : Except String Nat)) (fun _ => 0) =
      ⟨.retryError "All 3 attempts failed" (some "boom"), 3, 2⟩ := by
  constructor
  · exact claim5_retry_invocation_counts.1 Nat String { max_attempts := 3 } (fun _ => true)
      (fun i => if i ≤ 2 then Except.error "e" else Except.ok (7 : Nat)) (fun _ => 0)
      (fun _ => "e") 2 7
      (fun i _ h2 => ⟨by simp [h2], rfl, rfl⟩) (by simp) (by decide)
  · exact claim5_retry_invocation_counts.2 Nat String { max_attempts := 3 } (fun _ => true)
      (fun _ => Except.error "boom") (fun _ => 0) (fun _ => "boom")
      (fun _ _ => ⟨rfl, rfl, rfl⟩) (by decide)

/-- C6: a first invocation failing with a non-retryable error propagates that
original error with exactly one invocation and no sleep. -/
theorem claim6_nonretryable_single_invocation {α ε : Type} (cfg : RetryConfig)
    (retry_on : ε → Bool) (f : Nat → Except ε α) (elapsed : Nat → ℚ) (e : ε)
    (hf : f 1 = .error e) (hr : retry_on e = false) (hm : 1 ≤ cfg.max_attempts) :
    retry_sync_operation cfg retry_on f elapsed = ⟨.raised e, 1, 0⟩ := by
  unfold retry_sync_operation
  obtain ⟨fu, hfu⟩ : ∃ fu, cfg.max_attempts = fu + 1 := ⟨cfg.max_attempts - 1, by omega⟩
  rw [hfu]
  simp only [retry_loop, hf, hr, Bool.false_eq_true, if_false]

/-- C6 witness: a non-retryable failure under the default config. -/
theorem claim6_witness :
    retry_sync_operation ({} : RetryConfig) (fun _ => false)
        (fun _ => (Except.error "fatal" : Except String Nat)) (fun _ => 0) =
      ⟨.raised "fatal", 1, 0⟩ :=
  claim6_nonretryable_single_invocation ({} : RetryConfig) (fun _ => false) _ _ "fatal"
    rfl rfl (by decide)

end Retry

namespace RateLimit

/-- A degenerate but constructible limiter: max_requests = 0 (the source
constructor accepts it). -/
def limiterZero : RateLimiter := ⟨0, 60, 3, 1/2, 60, 1/10⟩

/-- C7 counterexample: with max_requests = 0 and no surviving timestamps the
rejection branch evaluates self.requests[0] on an empty list and raises
IndexError (rate_limiter.py line 105), not a rate-limit error carrying
retry_after, so the claimed rejection shape fails for this limiter. -/
theorem claim7_counterexample :
    acquire limiterZero [] 100 = (.indexError, []) :=
  rfl

/-- C7 amended: every admission first prunes timestamps older than
now - window; it admits and records now exactly when fewer than max_requests
timestamps survive; when at least max_requests survive and at least one
timestamp survives, it raises the rate-limit error with
retry_after = (oldest surviving + window) - now (the max with 0 collapses
because survivors are newer than now - window; with max_requests = 0 and no
survivor the access of the oldest raises IndexError instead); and the count
of recorded timestamps within the last window never exceeds max_requests,
assuming it did not before. -/
theorem claim7_amended (rl : RateLimiter) (requests : List ℚ) (now : ℚ) :
    ((cleanup_old_requests rl now requests).length < rl.max_requests ↔
      (acquire rl requests now).1 = .admitted now)
    ∧ ((cleanup_old_requests rl now requests).length < rl.max_requests →
      (acquire rl requests now).2 = cleanup_old_requests rl now requests ++ [now])
    ∧ (∀ oldest rest,
      cleanup_old_requests rl now requests = oldest :: rest →
      rl.max_requests ≤ (cleanup_old_requests rl now requests).length →
      acquire rl requests now =
        (.rateLimited (oldest + rl.window) (oldest + rl.window - now)
          rl.max_requests rl.window, oldest :: rest))
    ∧ (in_window_count rl now requests ≤ rl.max_requests →
      in_window_count rl now (acquire rl requests now).2 ≤ rl.max_requests) := by
  have hidem : (cleanup_old_requests rl now requests).filter
      (fun t => now - rl.window < t) = cleanup_old_requests rl now requests :=
    List.filter_eq_self.mpr (fun a ha => (List.mem_filter.mp ha).2)
  refine ⟨⟨?_, ?_⟩, ?_, ?_, ?_⟩
  · intro hlt
    unfold acquire
    rw [if_neg (by omega)]
  · intro hadm
    by_contra hge
    have hfull : rl.max_requests ≤ (cleanup_old_requests rl now requests).length :=
      by omega
    unfold acquire at hadm
    rw [if_pos hfull] at hadm
    cases hh : (cleanup_old_requests rl now requests).head? with
    | none => rw [hh] at hadm; exact AcquireResult.noConfusion hadm
    | some oldest => rw [hh] at hadm; exact AcquireResult.noConfusion hadm
  · intro hlt
    unfold acquire
    rw [if_neg (by omega)]
  · intro oldest rest hcons hfull
    have hmem : oldest ∈ cleanup_old_requests rl now requests := by
      rw [hcons]; exact List.mem_cons_self oldest rest
    have hpred : now - rl.window < oldest :=
      of_decide_eq_true (List.mem_filter.mp hmem).2
    have hmax : max 0 (oldest + rl.window - now) = oldest + rl.window - now :=
      max_eq_right (by linarith)
    have hacq : acquire rl requests now =
        (.rateLimited (oldest + rl.window) (max 0 (oldest + rl.window - now))
          rl.max_requests rl.window, oldest :: rest) := by
      unfold acquire
      rw [if_pos hfull, hcons]
      rfl
    rw [hacq, hmax]
  · intro hcount
    by_cases hfull : rl.max_requests ≤ (cleanup_old_requests rl now requests).length
    · have hstate : (acquire rl requests now).2 = cleanup_old_requests rl now requests := by
        unfold acquire
        rw [if_pos hfull]
        cases hh : (cleanup_old_requests rl now requests).head? with
        | none => rfl
        | some oldest => rfl
      rw [hstate]
      unfold in_window_count
      rw [hidem]
      exact hcount
    · have hstate : (acquire rl requests now).2 =
          cleanup_old_requests rl now requests ++ [now] := by
        unfold acquire
        rw [if_neg hfull]
      rw [hstate]
      unfold in_window_count
      rw [List.filter_append, List.length_append, hidem]
      have h2 : (List.filter (fun t => now - rl.window < t) [now]).length ≤ 1 :=
        List.length_filter_le _ _
      omega

/-- The concrete limiter of the C7 witness: 2 requests per 60-second
window. -/
def limiterTwo : RateLimiter := ⟨2, 60, 3, 1/2, 60, 1/10⟩

/-- C7 witness: a full window of [10, 30] at now = 50 is rejected with
retry_after = 10 + 60 - 50 = 20 and the list unchanged; [10] at now = 50 is
admitted; the in-window invariant is preserved by the rejected admission. -/
theorem claim7_witness :
    acquire limiterTwo [10, 30] 50 = (.rateLimited 70 20 2 60, [10, 30])
    ∧ (acquire limiterTwo [10] 50).1 = .admitted 50
    ∧ in_window_count limiterTwo 50 (acquire limiterTwo [10, 30] 50).2 ≤ 2 := by
  have h1 : cleanup_old_requests limiterTwo 50 [10, 30] = [10, 30] := by
    norm_num [cleanup_old_requests, List.filter_cons, limiterTwo]
  have h2 : cleanup_old_requests limiterTwo 50 [10] = [10] := by
    norm_num [cleanup_old_requests, List.filter_cons, limiterTwo]
  refine ⟨?_, ?_, ?_⟩
  · have h := (claim7_amended limiterTwo [10, 30] 50).2.2.1 10 [30] h1
      (by rw [h1]; norm_num [limiterTwo])
    rw [h]
    norm_num [limiterTwo]
  · exact (claim7_amended limiterTwo [10] 50).1.mp (by rw [h2]; norm_num [limiterTwo])
  · refine (claim7_amended limiterTwo [10, 30] 50).2.2.2 ?_
    norm_num [in_window_count, List.filter_cons, limiterTwo]

end RateLimit

namespace Auth

/-- With force_new = False, login first consults the session cache
(auth.py lines 61-68). -/
theorem login_not_force (net : AuthNet) (store : String → StoredSession) (now : Int)
    (st0 : LinkedInSessionState) (u p : String) :
    login net store now st0 u p false =
      match load_session store now u with
      | some session_data => ⟨.cached session_data, 0, st0, []⟩
      | none => network_login net now st0 u p :=
  rfl

/-- The network path always performs at least one network authentication
call (the API login attempt, auth.py line 75). -/
theorem network_login_pos (net : AuthNet) (now : Int) (st0 : LinkedInSessionState)
    (u p : String) : 1 ≤ (network_login net now st0 u p).network_calls := by
  unfold network_login
  cases h : net.api_login u p with
  | ok cp => exact Nat.le_refl _
  | error e => simp

/-- Network oracle on which every authentication attempt fails. -/
def netDown : AuthNet := ⟨fun _ _ => .error "net down", fun _ => .error "browser down"⟩

/-- Session store holding one record for user "user", written at time 0. -/
def storeFresh : String → StoredSession := fun u =>
  if u = "user" then .record ⟨some 0, [("li_at", "tok")], []⟩ else .absent

/-- The logged-out initial session state. -/
def stLoggedOut : LinkedInSessionState := ⟨false, none, none, none⟩

/-- C8 counterexample: adopting a cached record younger than 7 days returns
it with zero network calls, but self.session_state is left untouched
(auth.py lines 63-66 return session_data without assigning session_state),
so the session manager does not transition to LoggedIn as the claim
requires. -/
theorem claim8_counterexample :
    login netDown storeFresh 1000 stLoggedOut "user" "pw" false =
      ⟨.cached ⟨some 0, [("li_at", "tok")], []⟩, 0, stLoggedOut, []⟩
    ∧ (login netDown storeFresh 1000 stLoggedOut "user" "pw" false).final_state.logged_in ≠ true :=
  ⟨rfl, by decide⟩

/-- C8 amended: with force_new = False, a cached record younger than 7 days
is returned with zero network authentication calls and the in-memory session
state left unchanged (no LoggedIn transition); a record whose age is 7 days
or more causes a network authentication (at least one network call). -/
theorem claim8_amended :
    (∀ (net : AuthNet) (store : String → StoredSession) (now : Int)
        (st0 : LinkedInSessionState) (u p : String) (sd : SessionRecord),
        store u = .record sd →
        now - sd.timestamp.getD now < seven_days →
        login net store now st0 u p false = ⟨.cached sd, 0, st0, []⟩)
    ∧ (∀ (net : AuthNet) (store : String → StoredSession) (now : Int)
        (st0 : LinkedInSessionState) (u p : String) (sd : SessionRecord) (ts : Int),
        store u = .record sd →
        sd.timestamp = some ts →
        seven_days ≤ now - ts →
        1 ≤ (login net store now st0 u p false).network_calls) := by
  constructor
  · intro net store now st0 u p sd hstore hfresh
    rw [login_not_force]
    have hload : load_session store now u = some sd := by
      unfold load_session
      rw [hstore]
      show (if now - sd.timestamp.getD now < seven_days then some sd else none) = some sd
      rw [if_pos hfresh]
    rw [hload]
  · intro net store now st0 u p sd ts hstore hts hstale
    rw [login_not_force]
    have hload : load_session store now u = none := by
      unfold load_session
      rw [hstore]
      show (if now - sd.timestamp.getD now < seven_days then some sd else none) = none
      rw [hts]
      rw [if_neg (by rw [Option.getD_some]; exact not_lt.mpr hstale)]
    rw [hload]
    exact network_login_pos net now st0 u p

/-- C8 witness: the record written at time 0 is adopted at now = 1000 with
zero network calls; at now = 700000 (more than 7 days = 604800 seconds
later) the network path runs. -/
theorem claim8_witness :
    login netDown storeFresh 1000 stLoggedOut "user" "pw" false =
      ⟨.cached ⟨some 0, [("li_at", "tok")], []⟩, 0, stLoggedOut, []⟩
    ∧ 1 ≤ (login netDown storeFresh 700000 stLoggedOut "user" "pw" false).network_calls :=
  ⟨claim8_amended.1 netDown storeFresh 1000 stLoggedOut "user" "pw" _ rfl (by decide),
   claim8_amended.2 netDown storeFresh 700000 stLoggedOut "user" "pw" _ 0 rfl rfl (by decide)⟩

/-- C10: a stored record without a timestamp key has its age computed
against datetime.now() itself (auth.py line 127, .get with a now default),
so it is always considered fresh: _load_session returns it and login with
force_new = False adopts it, whatever the current time. -/
theorem claim10_missing_timestamp_is_fresh (net : AuthNet)
    (store : String → StoredSession) (now : Int) (st0 : LinkedInSessionState)
    (u p : String) (sd : SessionRecord)
    (hstore : store u = .record sd) (hts : sd.timestamp = none) :
    load_session store now u = some sd
    ∧ login net store now st0 u p false = ⟨.cached sd, 0, st0, []⟩ := by
  have hload : load_session store now u = some sd := by
    unfold load_session
    rw [hstore]
    show (if now - sd.timestamp.getD now < seven_days then some sd else none) = some sd
    rw [hts]
    rw [if_pos (by rw [Option.getD_none, sub_self]; decide)]
  refine ⟨hload, ?_⟩
  rw [login_not_force, hload]

/-- Session store whose record for "user" lacks the timestamp key. -/
def storeNoTimestamp : String → StoredSession := fun u =>
  if u = "user" then .record ⟨none, [("li_at", "tok2")], []⟩ else .absent

/-- C10 witness: the timestamp-less record is adopted even at an arbitrarily
late time. -/
theorem claim10_witness :
    load_session storeNoTimestamp 999999999 "user" =
      some ⟨none, [("li_at", "tok2")], []⟩
    ∧ login netDown storeNoTimestamp 999999999 stLoggedOut "user" "pw" false =
      ⟨.cached ⟨none, [("li_at", "tok2")], []⟩, 0, stLoggedOut, []⟩ :=
  claim10_missing_timestamp_is_fresh netDown storeNoTimestamp 999999999 stLoggedOut
    "user" "pw" _ rfl rfl

end Auth

namespace JobCache

/-- Updating one key leaves lookups at other keys unchanged. -/
theorem dictGet_dictSet_ne (d : JDict) (k k' : String) (v : JVal) (h : k' ≠ k) :
    dictGet (dictSet d k v) k' = dictGet d k' := by
  induction d with
  | nil =>
    simp only [dictSet, dictGet]
    rw [if_neg (fun hh => h (hh.symm))]
  | cons kv rest ih =>
    obtain ⟨k0, v0⟩ := kv
    by_cases h0 : k0 = k
    · simp only [dictSet, if_pos h0, dictGet]
      rw [if_neg (fun hh => h (hh.symm.trans h0)),
        if_neg (fun hh => h (hh.symm.trans h0))]
    · simp only [dictSet, if_neg h0, dictGet]
      by_cases h1 : k0 = k'
      · rw [if_pos h1, if_pos h1]
      · rw [if_neg h1, if_neg h1]
        exact ih

/-- A non-null existing field survives the whole merge loop: each iteration
either touches a different key or is skipped by the existing-value guard. -/
theorem merge_preserves_nonnull (incoming : JDict) :
    ∀ (existing : JDict) (k : String) (v : JVal),
      dictGet existing k = some v → JVal.isNone v = false →
      dictGet (merge_new_fields existing incoming) k = some v := by
  induction incoming with
  | nil => intro existing k v h _; exact h
  | cons kv rest ih =>
    intro existing k v h hv
    show dictGet (List.foldl merge_step (merge_step existing kv) rest) k = some v
    refine ih (merge_step existing kv) k v ?_ hv
    unfold merge_step
    by_cases h0 : JVal.isNone kv.2
    · rw [if_pos h0]; exact h
    · rw [if_neg h0]
      by_cases hk : kv.1 = k
      · rw [hk, h]
        show dictGet (if JVal.isNone v = true then dictSet existing k kv.2 else existing) k
          = some v
        rw [if_neg (by simp [hv])]
        exact h
      · cases hd : dictGet existing kv.1 with
        | none =>
          show dictGet (dictSet existing kv.1 kv.2) k = some v
          rw [dictGet_dictSet_ne existing kv.1 k kv.2 (fun hh => hk hh.symm)]
          exact h
        | some v0 =>
          show dictGet (if JVal.isNone v0 = true then dictSet existing kv.1 kv.2 else existing) k
            = some v
          by_cases h1 : JVal.isNone v0 = true
          · rw [if_pos h1]
            rw [dictGet_dictSet_ne existing kv.1 k kv.2 (fun hh => hk hh.symm)]
            exact h
          · rw [if_neg h1]
            exact h

/-- C9: an entity-cache write never overwrites a field that is present and
non-null in the existing record: after merging an incoming record (for any
key other than the _cached_at stamp the cache itself refreshes on every
write) the stored value at that key is the existing one.  The write replaces
the record under the rendered job id and stamps _cached_at. -/
theorem claim9_cache_merge_preserves (store : String → StoredJob) (now_iso : String)
    (jd existing : JDict) (k : String) (v : JVal)
    (hid : (pyGet jd "job_id").falsy = false)
    (hstore : store (pyGet jd "job_id").pyStr = .data existing)
    (hk : k ≠ "_cached_at")
    (hex : dictGet existing k = some v)
    (hv : JVal.isNone v = false) :
    cache_job_details store now_iso jd ((pyGet jd "job_id").pyStr) =
      .data (dictSet (merge_new_fields existing jd) "_cached_at" (.s now_iso))
    ∧ dictGet (dictSet (merge_new_fields existing jd) "_cached_at" (.s now_iso)) k = some v := by
  constructor
  · unfold cache_job_details
    rw [hid]
    show (if (pyGet jd "job_id").pyStr = (pyGet jd "job_id").pyStr then _ else _) = _
    rw [if_pos rfl, hstore]
  · rw [dictGet_dictSet_ne _ _ _ _ hk]
    exact merge_preserves_nonnull jd existing k v hex hv

/-- Cache store already holding the detailed record for job id 1. -/
def jobStoreDetailed : String → StoredJob := fun k =>
  if k = "1" then
    .data [("job_id", .s "1"), ("title", .s "X"), ("description", .s "long text")]
  else .absent

/-- C9 witness: caching the summary record for job 1 after the detailed one
leaves description = "long text" in the stored record (and stamps
_cached_at). -/
theorem claim9_witness :
    cache_job_details jobStoreDetailed "t0" [("job_id", .s "1"), ("title", .s "X")] "1" =
      .data [("job_id", .s "1"), ("title", .s "X"), ("description", .s "long text"),
        ("_cached_at", .s "t0")]
    ∧ dictGet [("job_id", JVal.s "1"), ("title", JVal.s "X"),
        ("description", JVal.s "long text"), ("_cached_at", JVal.s "t0")] "description" =
      some (.s "long text") :=
  claim9_cache_merge_preserves jobStoreDetailed "t0"
    [("job_id", .s "1"), ("title", .s "X")]
    [("job_id", .s "1"), ("title", .s "X"), ("description", .s "long text")]
    "description" (.s "long text") rfl rfl (by decide) rfl rfl

end JobCache

end LinkedinMcp
